import Mathlib

/-!
Verification development for the Monty demo module
(`src/cases/demo/demo_module.py`).

The module has two functions:

* `load_realization(ds, realization)` — slices one realization out of a
  3-D measurement cube, drops the last analyte column, labels rows by
  (plot-type, round) and sorts them;
* `init_model(df)` — builds a PyMC model graph of named latent,
  deterministic and observation nodes from the six table slices
  (treatment/control × rounds 1..3).

The embedding below models tables, the cube, the extractor, the graph
builder (with its node trace and failure points in source order), and a
value semantics for the deterministic nodes: a `Sample` assigns a value
to every latent variable, and `detValsOf` evaluates each deterministic
node expression exactly as written in the source.  Real arithmetic is
modelled exactly over `ℚ`.
-/

namespace Monty

/-! ### Row labels

After `data["control"].replace({1: "control", 0: "treatment"})` the
plot-type column holds strings for tags 1/0 and the raw integer for any
other tag.  pandas sorts such a mixed level with numbers before strings
(`safe_sort`'s mixed fallback), numbers ascending, strings in
code-point lexicographic order. -/

inductive Label
  | num (n : ℤ)
  | str (s : String)
deriving DecidableEq, Repr

/-- The pandas ordering on a (possibly mixed) index level: integers
before strings; integers by value; strings lexicographically by code
point. -/
def Label.le : Label → Label → Bool
  | .num a, .num b => decide (a ≤ b)
  | .num _, .str _ => true
  | .str _, .num _ => false
  | .str a, .str b => decide (a.data ≤ b.data)

/-- One row of the extracted table: two-level index (plot-type label,
round) plus the analyte concentration values. -/
structure Row where
  label : Label
  round : ℤ
  vals : List ℚ
deriving DecidableEq, Repr

/-- Lexicographic row order used by `sort_index()`: by plot-type label,
then by round. -/
def rowLe (a b : Row) : Bool :=
  if a.label = b.label then decide (a.round ≤ b.round) else Label.le a.label b.label

/-- The labeled table produced by `load_realization`: column names and
index-labeled rows. -/
structure Table where
  cols : List String
  rows : List Row
deriving DecidableEq, Repr

/-! ### The measurement cube (`xr.Dataset`)

`ds["data"]` is a 3-D array indexed (sample, analyte, realization);
`ds.attrs["analytes"]` names the analyte axis; `ds["control"]` and
`ds["round"]` are per-sample metadata columns. -/

structure Dataset where
  data : List (List (List ℚ))
  analytes : List String
  control : List ℤ
  round : List ℤ
deriving DecidableEq, Repr

/-- Length of the realization axis (third axis of the rectangular
`data` array). -/
def Dataset.nreal (ds : Dataset) : ℕ :=
  match ds.data with
  | [] => 0
  | srow :: _ =>
    match srow with
    | [] => 0
    | col :: _ => col.length

/-- The cube invariants guaranteed by the ndarray representation and
the dataset contract: analyte names span the analyte axis, the metadata
columns span the sample axis, and the array is rectangular. -/
def Dataset.WellFormed (ds : Dataset) : Prop :=
  (∀ srow ∈ ds.data, srow.length = ds.analytes.length) ∧
  ds.control.length = ds.data.length ∧
  ds.round.length = ds.data.length ∧
  ∀ srow ∈ ds.data, ∀ col ∈ srow, col.length = ds.nreal

instance (ds : Dataset) : Decidable ds.WellFormed := by
  unfold Dataset.WellFormed; infer_instance

inductive ExtractErr
  | indexError
  | schemaError
deriving DecidableEq, Repr

/-- Python's mapping `{1: "control", 0: "treatment"}` applied by
`replace`; any other tag value passes through unmapped. -/
def mapTag (n : ℤ) : Label :=
  if n = 1 then .str "control" else if n = 0 then .str "treatment" else .num n

/-- Python sequence indexing: a negative index counts from the end. -/
def effIndex (n : ℕ) (r : ℤ) : ℕ :=
  (if r < 0 then r + n else r).toNat

/-- Row `i` of the unsorted frame: label and round from the metadata
columns, values from `ds["data"][i, :-1, eff]`. -/
def rawRow (ds : Dataset) (eff : ℕ) (i : ℕ) : Row :=
  { label := mapTag (ds.control.getD i 0)
    round := ds.round.getD i 0
    vals := (ds.data.getD i []).dropLast.map (fun col => col.getD eff 0) }

/-- The unsorted frame built by `pd.DataFrame(...)` plus the two
`insert` calls and the tag remapping, before `sort_index()`. -/
def rawRows (ds : Dataset) (eff : ℕ) : List Row :=
  (List.range ds.data.length).map (rawRow ds eff)

/-- `load_realization(ds, realization)`:
slice `ds["data"][:, :-1, realization]` (IndexError first, on an
out-of-bounds realization index), build the frame with columns
`ds.attrs["analytes"][:-1]` (schema error on a width mismatch), insert
the metadata columns (schema error on a length mismatch), remap the
plot-type tags, set the two-level index and sort rows by
(plot-type label, round). -/
def load_realization (ds : Dataset) (r : ℤ) : Except ExtractErr Table :=
  if r < -(ds.nreal : ℤ) ∨ (ds.nreal : ℤ) ≤ r then .error .indexError
  else if ds.data.all (fun srow => srow.length == ds.analytes.length) then
    if ds.control.length == ds.data.length && ds.round.length == ds.data.length then
      .ok { cols := ds.analytes.dropLast
            rows := (rawRows ds (effIndex ds.nreal r)).mergeSort rowLe }
    else .error .schemaError
  else .error .schemaError

/-! ### The model graph built by `init_model`

Each `pm.*` call declares one named node in the ambient `pm.Model()`
context.  We record, per node, its name and whether it is a free latent
variable, a deterministic node, or an observation node (together with
the fixed observed array baked in from the table).  The two tracked
analytes make every vector quantity a pair. -/

inductive BuildErr
  | missingSlice (lab : String) (rnd : ℤ)
  | wrongColumns (lab : String) (rnd : ℤ)
  | duplicateSlice (lab : String) (rnd : ℤ)
deriving DecidableEq, Repr

/-- `df.loc[lab, rnd]` on the two-level-indexed table: the unique
matching row's pair of analyte values.  A missing (plot-type, round)
pair raises a KeyError (missing-slice error); a row without exactly the
two tracked analyte columns breaks the fixed shape-(2,) broadcasting
(wrong-column-count error); a duplicated pair returns a 2-D selection
that likewise breaks it. -/
def Table.loc (df : Table) (lab : String) (rnd : ℤ) : Except BuildErr (ℚ × ℚ) :=
  match df.rows.filter (fun row => row.label == Label.str lab && row.round == rnd) with
  | [] => .error (.missingSlice lab rnd)
  | [row] =>
    match row.vals with
    | [a, b] => .ok (a, b)
    | _ => .error (.wrongColumns lab rnd)
  | _ => .error (.duplicateSlice lab rnd)

inductive NodeKind
  | latent
  | det
  | observed (data : ℚ × ℚ)
deriving DecidableEq, Repr

structure Node where
  name : String
  kind : NodeKind
deriving DecidableEq, Repr

abbrev Graph := List Node

/-- Nodes declared before the first table access (`df.loc["treatment", 1]`
inside the "mixed concentration" expression). -/
def stageNodesA : Graph :=
  [⟨"wet feedstock mass", .latent⟩,
   ⟨"treatment area", .latent⟩,
   ⟨"sample depth", .latent⟩,
   ⟨"feedstock moisture fraction", .latent⟩,
   ⟨"dry feedstock mass", .det⟩,
   ⟨"application rate", .det⟩,
   ⟨"feedstock concentration", .latent⟩,
   ⟨"soil density", .latent⟩,
   ⟨"soil mass", .det⟩,
   ⟨"mixing fraction", .det⟩]

/-- Nodes declared after the round-1 treatment slice succeeds and before
`df.loc["treatment", 2]` is dereferenced for the "obs enriched" data. -/
def stageNodesB : Graph :=
  [⟨"mixed concentration", .det⟩,
   ⟨"enrichment", .det⟩,
   ⟨"enrichment sigma", .latent⟩]

/-- Nodes declared after the round-2 treatment slice succeeds and before
`df.loc["control", 3]` is dereferenced for the "obs control" data. -/
def stageNodesC (t1 t2 : ℚ × ℚ) : Graph :=
  [⟨"obs enriched", .observed (t2.1 - t1.1, t2.2 - t1.2)⟩,
   ⟨"control change", .latent⟩,
   ⟨"control change sigma", .latent⟩]

/-- Nodes declared after the three control slices succeed and before
`df.loc["treatment", 3]` is dereferenced for the "obs weathered" data. -/
def stageNodesD (c3 c1 c2 : ℚ × ℚ) : Graph :=
  [⟨"obs control", .observed (c3.1 - (c1.1 / 2 + c2.1 / 2), c3.2 - (c1.2 / 2 + c2.2 / 2))⟩,
   ⟨"norm loss mu", .latent⟩,
   ⟨"norm loss sigma", .latent⟩,
   ⟨"norm loss", .latent⟩,
   ⟨"concentration loss", .det⟩,
   ⟨"weathered concentration", .det⟩,
   ⟨"weathered sigma", .latent⟩]

/-- Nodes declared after the round-3 treatment slice succeeds (the
observation on weathered concentrations and the CDR summary nodes). -/
def stageNodesE (t3 : ℚ × ℚ) : Graph :=
  [⟨"obs weathered", .observed t3⟩,
   ⟨"CDR potential (per mass)", .det⟩,
   ⟨"CDR potential (per area)", .det⟩,
   ⟨"CDR (per area)", .det⟩,
   ⟨"CDR [metric ton CO2]", .det⟩,
   ⟨"CDR completion [-]", .det⟩]

/-- The node trace of `init_model(df)`: the nodes declared up to the
point the first table dereference fails (if any), in source order,
together with the error.  Python evaluates every `pm.*` argument before
declaring the node, so a failing `df.loc` leaves the node it feeds
undeclared. -/
def init_trace (df : Table) : Graph × Option BuildErr :=
  match df.loc "treatment" 1 with
  | .error e => (stageNodesA, some e)
  | .ok t1 =>
    match df.loc "treatment" 2 with
    | .error e => (stageNodesA ++ stageNodesB, some e)
    | .ok t2 =>
      match df.loc "control" 3 with
      | .error e => (stageNodesA ++ stageNodesB ++ stageNodesC t1 t2, some e)
      | .ok c3 =>
        match df.loc "control" 1 with
        | .error e => (stageNodesA ++ stageNodesB ++ stageNodesC t1 t2, some e)
        | .ok c1 =>
          match df.loc "control" 2 with
          | .error e => (stageNodesA ++ stageNodesB ++ stageNodesC t1 t2, some e)
          | .ok c2 =>
            match df.loc "treatment" 3 with
            | .error e =>
              (stageNodesA ++ stageNodesB ++ stageNodesC t1 t2 ++ stageNodesD c3 c1 c2, some e)
            | .ok t3 =>
              (stageNodesA ++ stageNodesB ++ stageNodesC t1 t2 ++ stageNodesD c3 c1 c2
                ++ stageNodesE t3, none)

/-- `init_model(df)`: the finished model graph, or the first
table-dereference error; an error propagates out of the `with` block and
no model object reaches the caller. -/
def init_model (df : Table) : Except BuildErr Graph :=
  match init_trace df with
  | (g, none) => .ok g
  | (_, some e) => .error e

/-! ### Effect accounting for `init_model`

`init_model` only ever reads `df.loc[...]` and performs no I/O.  To
state that as a theorem we thread an explicit world (the caller's table
plus an I/O log) through every primitive the body executes and check
the world comes back unchanged. -/

structure World where
  table : Table
  ioLog : List String
deriving DecidableEq, Repr

/-- The one table primitive the body of `init_model` uses:
`df.loc[lab, rnd]`, a read. -/
def World.readLoc (w : World) (lab : String) (rnd : ℤ) :
    Except BuildErr (ℚ × ℚ) × World :=
  (w.table.loc lab rnd, w)

/-- `init_model` with the world threaded through each of its six table
dereferences, in source order. -/
def init_modelW (w0 : World) : Except BuildErr Graph × World :=
  match w0.readLoc "treatment" 1 with
  | (.error e, w1) => (.error e, w1)
  | (.ok t1, w1) =>
    match w1.readLoc "treatment" 2 with
    | (.error e, w2) => (.error e, w2)
    | (.ok t2, w2) =>
      match w2.readLoc "control" 3 with
      | (.error e, w3) => (.error e, w3)
      | (.ok c3, w3) =>
        match w3.readLoc "control" 1 with
        | (.error e, w4) => (.error e, w4)
        | (.ok c1, w4) =>
          match w4.readLoc "control" 2 with
          | (.error e, w5) => (.error e, w5)
          | (.ok c2, w5) =>
            match w5.readLoc "treatment" 3 with
            | (.error e, w6) => (.error e, w6)
            | (.ok t3, w6) =>
              (.ok (stageNodesA ++ stageNodesB ++ stageNodesC t1 t2
                      ++ stageNodesD c3 c1 c2 ++ stageNodesE t3), w6)

/-! ### Value semantics of the deterministic nodes

A `Sample` assigns a concrete value to every free latent variable of
the graph.  A sample "drawn from the graph" takes each latent inside
the support of its prior (`Sample.InSupport`); the Normal latents have
full support.  `detValsOf` evaluates every deterministic node and every
observed array exactly as the source expressions do, given the six
table slices. -/

structure Sample where
  wet_feedstock_mass : ℚ
  treatment_area : ℚ
  sample_depth : ℚ
  feedstock_moisture_fraction : ℚ
  feedstock_concentration : ℚ × ℚ
  soil_density : ℚ
  enrichment_sigma : ℚ × ℚ
  control_change : ℚ × ℚ
  control_change_sigma : ℚ × ℚ
  norm_loss_mu : ℚ
  norm_loss_sigma : ℚ
  norm_loss : ℚ × ℚ
  weathered_sigma : ℚ × ℚ
deriving DecidableEq, Repr

/-- Support constraints of the priors: Gamma and Exponential draws are
positive, Half-Normal draws nonnegative, Uniform on [0,1], Beta on
(0,1); every Normal latent ranges over all of ℝ. -/
def Sample.InSupport (s : Sample) : Prop :=
  0 < s.sample_depth ∧
  0 < s.enrichment_sigma.1 ∧ 0 < s.enrichment_sigma.2 ∧
  0 ≤ s.control_change_sigma.1 ∧ 0 ≤ s.control_change_sigma.2 ∧
  0 ≤ s.norm_loss_mu ∧ s.norm_loss_mu ≤ 1 ∧
  0 < s.norm_loss_sigma ∧ s.norm_loss_sigma < 1 ∧
  0 < s.weathered_sigma.1 ∧ 0 < s.weathered_sigma.2

instance (s : Sample) : Decidable s.InSupport := by
  unfold Sample.InSupport; infer_instance

/-- The values of the deterministic nodes and the fixed observed arrays
of the graph, at one sample. -/
structure DetVals where
  dry_feedstock_mass : ℚ
  application_rate : ℚ
  soil_mass : ℚ
  mixing_fraction : ℚ
  mixed_concentration : ℚ × ℚ
  enrichment : ℚ × ℚ
  obs_enriched_data : ℚ × ℚ
  obs_control_data : ℚ × ℚ
  concentration_loss : ℚ × ℚ
  weathered_concentration : ℚ × ℚ
  obs_weathered_data : ℚ × ℚ
  cdr_potential_mass : ℚ
  cdr_potential_area : ℚ
  cdr_area : ℚ
  cdr_ton : ℚ
  cdr_completion : ℚ
deriving DecidableEq, Repr

/-- Each deterministic node expression of `init_model`, evaluated at a
sample, given the six table slices t1 t2 t3 (treatment rounds 1..3) and
c1 c2 c3 (control rounds 1..3).  The stoichiometric conversion factors
are the source's `np.array([2.196, 3.621])`. -/
def detValsOf (t1 t2 c3 c1 c2 t3 : ℚ × ℚ) (s : Sample) : DetVals :=
  let dry := (1 - s.feedstock_moisture_fraction) * s.wet_feedstock_mass
  let rate := dry / s.treatment_area
  let soil := s.soil_density * s.sample_depth
  let mf := rate / (rate + soil)
  let fc := s.feedstock_concentration
  let mixed := (mf * fc.1 + (1 - mf) * t1.1, mf * fc.2 + (1 - mf) * t1.2)
  let enr := (mixed.1 - t1.1, mixed.2 - t1.2)
  let loss := (s.norm_loss.1 * enr.1, s.norm_loss.2 * enr.2)
  let cdrpot := fc.1 * 2.196 + fc.2 * 3.621
  let cdrpotArea := rate * cdrpot
  let cdr := (s.norm_loss.1 * fc.1 * 2.196 + s.norm_loss.2 * fc.2 * 3.621) * rate
  { dry_feedstock_mass := dry
    application_rate := rate
    soil_mass := soil
    mixing_fraction := mf
    mixed_concentration := mixed
    enrichment := enr
    obs_enriched_data := (t2.1 - t1.1, t2.2 - t1.2)
    obs_control_data := (c3.1 - (c1.1 / 2 + c2.1 / 2), c3.2 - (c1.2 / 2 + c2.2 / 2))
    concentration_loss := loss
    weathered_concentration :=
      (t2.1 - (loss.1 - s.control_change.1), t2.2 - (loss.2 - s.control_change.2))
    obs_weathered_data := t3
    cdr_potential_mass := cdrpot
    cdr_potential_area := cdrpotArea
    cdr_area := cdr
    cdr_ton := cdr * s.treatment_area / 1000
    cdr_completion := cdr / cdrpotArea }

/-- The deterministic-node values of `init_model df` at sample `s`,
with the table dereferenced in source order. -/
def detVals (df : Table) (s : Sample) : Except BuildErr DetVals :=
  match df.loc "treatment" 1 with
  | .error e => .error e
  | .ok t1 =>
    match df.loc "treatment" 2 with
    | .error e => .error e
    | .ok t2 =>
      match df.loc "control" 3 with
      | .error e => .error e
      | .ok c3 =>
        match df.loc "control" 1 with
        | .error e => .error e
        | .ok c1 =>
          match df.loc "control" 2 with
          | .error e => .error e
          | .ok c2 =>
            match df.loc "treatment" 3 with
            | .error e => .error e
            | .ok t3 => .ok (detValsOf t1 t2 c3 c1 c2 t3 s)

/-! ### Concrete inputs

The synthetic table of the end-to-end scenario (treatment rounds 1..3 =
[[0.05,0.04],[0.07,0.05],[0.065,0.045]], control rounds 1..3 =
[[0.05,0.04],[0.051,0.041],[0.0505,0.0405]]), a variant lacking the
(control, 3) row, a small concrete cube for the extractor, and concrete
samples. -/

def demoTable : Table :=
  { cols := ["a1", "a2"]
    rows :=
      [⟨.str "control", 1, [0.05, 0.04]⟩,
       ⟨.str "control", 2, [0.051, 0.041]⟩,
       ⟨.str "control", 3, [0.0505, 0.0405]⟩,
       ⟨.str "treatment", 1, [0.05, 0.04]⟩,
       ⟨.str "treatment", 2, [0.07, 0.05]⟩,
       ⟨.str "treatment", 3, [0.065, 0.045]⟩] }

/-- The demo table with the (control, 3) row removed. -/
def demoTableNoC3 : Table :=
  { cols := ["a1", "a2"]
    rows :=
      [⟨.str "control", 1, [0.05, 0.04]⟩,
       ⟨.str "control", 2, [0.051, 0.041]⟩,
       ⟨.str "treatment", 1, [0.05, 0.04]⟩,
       ⟨.str "treatment", 2, [0.07, 0.05]⟩,
       ⟨.str "treatment", 3, [0.065, 0.045]⟩] }

/-- A sample with every latent at an unremarkable in-support value and
a positive application rate and soil mass. -/
def samplePos : Sample :=
  { wet_feedstock_mass := 2
    treatment_area := 1
    sample_depth := 1
    feedstock_moisture_fraction := 1/2
    feedstock_concentration := (0.07, 0.05)
    soil_density := 1
    enrichment_sigma := (1, 1)
    control_change := (0, 0)
    control_change_sigma := (0, 0)
    norm_loss_mu := 1/2
    norm_loss_sigma := 1/2
    norm_loss := (1, 1)
    weathered_sigma := (1, 1) }

/-- An in-support sample whose wet feedstock mass is negative (the
Normal prior has full support), so the application rate is negative. -/
def sampleNegRate : Sample :=
  { samplePos with wet_feedstock_mass := -2, soil_density := 2 }

/-- The deterministic-node values of the demo model at `samplePos`. -/
def demoVals : DetVals :=
  detValsOf (0.05, 0.04) (0.07, 0.05) (0.0505, 0.0405) (0.05, 0.04)
    (0.051, 0.041) (0.065, 0.045) samplePos

/-- The deterministic-node values of the demo model at `sampleNegRate`. -/
def demoValsNeg : DetVals :=
  detValsOf (0.05, 0.04) (0.07, 0.05) (0.0505, 0.0405) (0.05, 0.04)
    (0.051, 0.041) (0.065, 0.045) sampleNegRate

/-- A 2-sample × 3-analyte × 2-realization cube: one treatment row
(tag 0) at round 2 and one control row (tag 1) at round 1, so sorting
must swap the rows. -/
def demoDataset : Dataset :=
  { data := [[[1, 10], [2, 20], [9, 90]], [[3, 30], [4, 40], [8, 80]]]
    analytes := ["a1", "a2", "meta"]
    control := [0, 1]
    round := [2, 1] }

/-- A cube whose second sample carries the unrecognized plot-type
tag 7. -/
def demoDatasetTag7 : Dataset :=
  { demoDataset with control := [0, 7] }

/-! ### Order laws for the row comparison -/

lemma labelLe_total (a b : Label) : (Label.le a b || Label.le b a) = true := by
  cases a with
  | num m =>
    cases b with
    | num n => simp only [Label.le, Bool.or_eq_true, decide_eq_true_eq]; omega
    | str s => simp [Label.le]
  | str s =>
    cases b with
    | num n => simp [Label.le]
    | str t =>
      simp only [Label.le, Bool.or_eq_true, decide_eq_true_eq]
      exact le_total s.data t.data

lemma labelLe_trans {a b c : Label} (hab : Label.le a b = true)
    (hbc : Label.le b c = true) : Label.le a c = true := by
  cases a with
  | num m =>
    cases c with
    | num k =>
      cases b with
      | num n =>
        simp only [Label.le, decide_eq_true_eq] at hab hbc ⊢
        omega
      | str s => simp [Label.le] at hbc
    | str t => simp [Label.le]
  | str s =>
    cases b with
    | num n => simp [Label.le] at hab
    | str t =>
      cases c with
      | num k => simp [Label.le] at hbc
      | str u =>
        simp only [Label.le, decide_eq_true_eq] at hab hbc ⊢
        exact le_trans hab hbc

lemma labelLe_antisymm {a b : Label} (hab : Label.le a b = true)
    (hba : Label.le b a = true) : a = b := by
  cases a with
  | num m =>
    cases b with
    | num n =>
      simp only [Label.le, decide_eq_true_eq] at hab hba
      exact congrArg Label.num (le_antisymm hab hba)
    | str s => simp [Label.le] at hba
  | str s =>
    cases b with
    | num n => simp [Label.le] at hab
    | str t =>
      simp only [Label.le, decide_eq_true_eq] at hab hba
      exact congrArg Label.str (congrArg String.mk (le_antisymm hab hba))

lemma rowLe_total (a b : Row) : (rowLe a b || rowLe b a) = true := by
  unfold rowLe
  by_cases h : a.label = b.label
  · rw [if_pos h, if_pos h.symm]
    simp only [Bool.or_eq_true, decide_eq_true_eq]
    omega
  · rw [if_neg h, if_neg (Ne.symm h)]
    exact labelLe_total a.label b.label

lemma rowLe_trans (a b c : Row) (hab : rowLe a b = true) (hbc : rowLe b c = true) :
    rowLe a c = true := by
  unfold rowLe at *
  by_cases h1 : a.label = b.label <;> by_cases h2 : b.label = c.label
  · rw [if_pos h1] at hab
    rw [if_pos h2] at hbc
    rw [if_pos (h1.trans h2)]
    simp only [decide_eq_true_eq] at *
    omega
  · rw [if_neg (h1 ▸ h2)]
    rw [if_neg h2] at hbc
    exact h1 ▸ hbc
  · rw [if_neg (fun h => h1 (h.trans h2.symm))]
    rw [if_neg h1] at hab
    exact h2 ▸ hab
  · rw [if_neg h1] at hab
    rw [if_neg h2] at hbc
    by_cases h3 : a.label = c.label
    · exact absurd (labelLe_antisymm hab (h3 ▸ hbc)) h1
    · rw [if_neg h3]
      exact labelLe_trans hab hbc

/-! ### Inversion of a successful deterministic-node valuation -/

lemma detVals_ok {df : Table} {s : Sample} {v : DetVals}
    (h : detVals df s = .ok v) :
    ∃ t1 t2 c3 c1 c2 t3,
      df.loc "treatment" 1 = .ok t1 ∧ df.loc "treatment" 2 = .ok t2 ∧
      df.loc "control" 3 = .ok c3 ∧ df.loc "control" 1 = .ok c1 ∧
      df.loc "control" 2 = .ok c2 ∧ df.loc "treatment" 3 = .ok t3 ∧
      v = detValsOf t1 t2 c3 c1 c2 t3 s := by
  unfold detVals at h
  cases h1 : df.loc "treatment" 1 with
  | error e => rw [h1] at h; exact Except.noConfusion h
  | ok t1 =>
  rw [h1] at h
  cases h2 : df.loc "treatment" 2 with
  | error e => rw [h2] at h; exact Except.noConfusion h
  | ok t2 =>
  rw [h2] at h
  cases h3 : df.loc "control" 3 with
  | error e => rw [h3] at h; exact Except.noConfusion h
  | ok c3 =>
  rw [h3] at h
  cases h4 : df.loc "control" 1 with
  | error e => rw [h4] at h; exact Except.noConfusion h
  | ok c1 =>
  rw [h4] at h
  cases h5 : df.loc "control" 2 with
  | error e => rw [h5] at h; exact Except.noConfusion h
  | ok c2 =>
  rw [h5] at h
  cases h6 : df.loc "treatment" 3 with
  | error e => rw [h6] at h; exact Except.noConfusion h
  | ok t3 =>
  rw [h6] at h
  exact ⟨t1, t2, c3, c1, c2, t3, rfl, rfl, rfl, rfl, rfl, rfl,
    (Except.ok.injEq _ _ ▸ h).symm⟩

/-- For positive numerator and positive second summand,
`a / (a + s)` lies strictly between 0 and 1. -/
lemma div_add_mem_open_unit (a s : ℚ) (ha : 0 < a) (hs : 0 < s) :
    0 < a / (a + s) ∧ a / (a + s) < 1 := by
  constructor
  · exact div_pos ha (by linarith)
  · rw [div_lt_one (by linarith)]
    linarith

/-! ### Claims about the deterministic nodes (C1, C3, C4) -/

/-- C1 (counterexample): at the synthetic demo table and the concrete
in-support sample `samplePos`, the node "weathered concentration" has
value (0.06, 0.045), while the round-3 treatment measurement (the
observed data of "obs weathered") minus (concentration loss minus
control drift) is (0.055, 0.04): the claim's round-3 formula does not
match the node the code builds from the round-2 measurement. -/
theorem claim1_counterexample :
    detVals demoTable samplePos = .ok demoVals ∧
    demoVals.weathered_concentration ≠
      (demoVals.obs_weathered_data.1 -
        (demoVals.concentration_loss.1 - samplePos.control_change.1),
       demoVals.obs_weathered_data.2 -
        (demoVals.concentration_loss.2 - samplePos.control_change.2)) := by
  constructor
  · rfl
  · norm_num [demoVals, detValsOf, samplePos, Prod.ext_iff]

/-- C1 (amended): in stage 5 of build, the deterministic node
"weathered concentration" equals the round-2 treatment measurement
minus (concentration loss minus control drift), for every table
satisfying the build precondition and every sample. -/
theorem claim1_weathered_from_round2 (df : Table) (s : Sample) (v : DetVals)
    (t2 : ℚ × ℚ) (hv : detVals df s = .ok v)
    (ht2 : df.loc "treatment" 2 = .ok t2) :
    v.weathered_concentration =
      (t2.1 - (v.concentration_loss.1 - s.control_change.1),
       t2.2 - (v.concentration_loss.2 - s.control_change.2)) := by
  obtain ⟨u1, u2, w3, w1, w2, u3, _, h2, _, _, _, _, hval⟩ := detVals_ok hv
  rw [ht2] at h2
  cases h2
  rw [hval]
  rfl

/-- C1 (witness): the amended round-2 identity checked at the demo
table and `samplePos`. -/
theorem claim1_weathered_from_round2_witness :
    demoVals.weathered_concentration =
      ((0.07 : ℚ) - (demoVals.concentration_loss.1 - samplePos.control_change.1),
       (0.05 : ℚ) - (demoVals.concentration_loss.2 - samplePos.control_change.2)) :=
  claim1_weathered_from_round2 demoTable samplePos demoVals (0.07, 0.05)
    (by rfl) (by rfl)

/-- C3 (counterexample): the Normal priors have full support, so a
sample drawn from the graph can make the application rate negative;
at `sampleNegRate` (wet feedstock mass −2, inside the support of every
prior) the node "mixing fraction" evaluates to −1, outside (0,1). -/
theorem claim3_counterexample :
    sampleNegRate.InSupport ∧
    detVals demoTable sampleNegRate = .ok demoValsNeg ∧
    ¬ (0 < demoValsNeg.mixing_fraction ∧ demoValsNeg.mixing_fraction < 1) := by
  refine ⟨?_, rfl, ?_⟩
  · norm_num [Sample.InSupport, sampleNegRate, samplePos]
  · norm_num [demoValsNeg, detValsOf, sampleNegRate, samplePos]

/-- C3 (amended): for every sample drawn from the graph in which the
application rate and the soil mass are positive, the deterministic node
"mixing fraction" = application rate / (application rate + soil mass)
lies strictly in the open interval (0,1). -/
theorem claim3_mixing_fraction_open_unit (df : Table) (s : Sample) (v : DetVals)
    (hv : detVals df s = .ok v)
    (hrate : 0 < v.application_rate) (hsoil : 0 < v.soil_mass) :
    0 < v.mixing_fraction ∧ v.mixing_fraction < 1 := by
  obtain ⟨t1, t2, c3, c1, c2, t3, _, _, _, _, _, _, hval⟩ := detVals_ok hv
  subst hval
  exact div_add_mem_open_unit _ _ hrate hsoil

/-- C3 (witness): the amended interval bound checked at the demo table
and `samplePos`, where the application rate and soil mass are 1. -/
theorem claim3_mixing_fraction_open_unit_witness :
    0 < demoVals.mixing_fraction ∧ demoVals.mixing_fraction < 1 :=
  claim3_mixing_fraction_open_unit demoTable samplePos demoVals
    (by rfl) (by norm_num [demoVals, detValsOf, samplePos])
    (by norm_num [demoVals, detValsOf, samplePos])

/-- C4: for every sample drawn from the graph returned by build, the
deterministic node "dry feedstock mass" equals
(1 − feedstock moisture fraction) × wet feedstock mass — exactly, in
the exact-rational semantics. -/
theorem claim4_dry_feedstock_mass (df : Table) (s : Sample) (v : DetVals)
    (hv : detVals df s = .ok v) :
    v.dry_feedstock_mass =
      (1 - s.feedstock_moisture_fraction) * s.wet_feedstock_mass := by
  obtain ⟨t1, t2, c3, c1, c2, t3, _, _, _, _, _, _, hval⟩ := detVals_ok hv
  subst hval
  rfl

/-- C4 (witness): the dry-mass identity checked at the demo table and
`samplePos` ((1 − 1/2) × 2 = 1). -/
theorem claim4_dry_feedstock_mass_witness :
    demoVals.dry_feedstock_mass =
      (1 - samplePos.feedstock_moisture_fraction) * samplePos.wet_feedstock_mass :=
  claim4_dry_feedstock_mass demoTable samplePos demoVals (by rfl)

/-! ### Claims about the built graph (C2, C6, C8) -/

/-- The graph `init_model` builds from the demo table, written out:
29 named nodes, with the three observation nodes bound to
(round2 − round1 treatment), (round-3 control minus the mean of
round-1/round-2 control) and the round-3 treatment measurements. -/
def demoGraph : Graph :=
  [⟨"wet feedstock mass", .latent⟩,
   ⟨"treatment area", .latent⟩,
   ⟨"sample depth", .latent⟩,
   ⟨"feedstock moisture fraction", .latent⟩,
   ⟨"dry feedstock mass", .det⟩,
   ⟨"application rate", .det⟩,
   ⟨"feedstock concentration", .latent⟩,
   ⟨"soil density", .latent⟩,
   ⟨"soil mass", .det⟩,
   ⟨"mixing fraction", .det⟩,
   ⟨"mixed concentration", .det⟩,
   ⟨"enrichment", .det⟩,
   ⟨"enrichment sigma", .latent⟩,
   ⟨"obs enriched", .observed (0.02, 0.01)⟩,
   ⟨"control change", .latent⟩,
   ⟨"control change sigma", .latent⟩,
   ⟨"obs control", .observed (0, 0)⟩,
   ⟨"norm loss mu", .latent⟩,
   ⟨"norm loss sigma", .latent⟩,
   ⟨"norm loss", .latent⟩,
   ⟨"concentration loss", .det⟩,
   ⟨"weathered concentration", .det⟩,
   ⟨"weathered sigma", .latent⟩,
   ⟨"obs weathered", .observed (0.065, 0.045)⟩,
   ⟨"CDR potential (per mass)", .det⟩,
   ⟨"CDR potential (per area)", .det⟩,
   ⟨"CDR (per area)", .det⟩,
   ⟨"CDR [metric ton CO2]", .det⟩,
   ⟨"CDR completion [-]", .det⟩]

/-- C2 (counterexample): on the synthetic demo table, build succeeds
but the graph carries 29 pairwise-distinct node names, not the claimed
19. -/
theorem claim2_counterexample :
    Except.map (fun g => ((g.map Node.name).length, decide ((g.map Node.name).Nodup)))
        (init_model demoTable) = .ok (29, true) ∧
    (29 : ℕ) ≠ 19 :=
  ⟨rfl, by decide⟩

/-- C2 (amended): on the synthetic demo table, build succeeds and
returns the graph of exactly the 29 named nodes enumerated by the five
stages, with the observation node "obs enriched" bound to the fixed
observed array (0.02, 0.01) = round-2 minus round-1 treatment. -/
theorem claim2_build_demo_graph :
    init_model demoTable = .ok demoGraph ∧
    demoGraph.length = 29 ∧
    (demoGraph.map Node.name).Nodup ∧
    demoGraph.filter (fun n => n.name == "obs enriched") =
      [⟨"obs enriched", .observed (0.02, 0.01)⟩] := by
  refine ⟨?_, rfl, by decide, rfl⟩
  have e : init_model demoTable =
      .ok (stageNodesA ++ stageNodesB ++ stageNodesC (0.05, 0.04) (0.07, 0.05) ++
        stageNodesD (0.0505, 0.0405) (0.05, 0.04) (0.051, 0.041) ++
        stageNodesE (0.065, 0.045)) := rfl
  rw [e]
  norm_num [stageNodesA, stageNodesB, stageNodesC, stageNodesD, stageNodesE,
    demoGraph, Prod.ext_iff]

/-- C6: for every table carrying valid round-1 and round-2 treatment
slices but no ("control", 3) row, build fails with the missing-slice
error for ("control", 3), the trace of constructed nodes contains no
observation node of the control-drift stage ("obs control" is never
declared), and no model graph is returned. -/
theorem claim6_missing_control3 (df : Table) (t1 t2 : ℚ × ℚ)
    (h1 : df.loc "treatment" 1 = .ok t1)
    (h2 : df.loc "treatment" 2 = .ok t2)
    (h3 : ∀ r ∈ df.rows, ¬(r.label = Label.str "control" ∧ r.round = 3)) :
    init_model df = .error (.missingSlice "control" 3) ∧
    "obs control" ∉ (init_trace df).1.map Node.name ∧
    (init_trace df).2 = some (.missingSlice "control" 3) := by
  have hfil : df.rows.filter
      (fun row => row.label == Label.str "control" && row.round == (3 : ℤ)) = [] := by
    rw [List.filter_eq_nil_iff]
    intro r hr
    have hnot := h3 r hr
    simp only [Bool.and_eq_true, beq_iff_eq]
    exact fun hcontra => hnot ⟨hcontra.1, hcontra.2⟩
  have hloc : df.loc "control" 3 = .error (.missingSlice "control" 3) := by
    unfold Table.loc
    rw [hfil]
  have htr : init_trace df =
      (stageNodesA ++ stageNodesB ++ stageNodesC t1 t2,
        some (.missingSlice "control" 3)) := by
    unfold init_trace
    rw [h1, h2, hloc]
  refine ⟨?_, ?_, ?_⟩
  · unfold init_model
    rw [htr]
  · rw [htr]
    simp only [List.map_append, stageNodesA, stageNodesB, stageNodesC,
      List.map_cons, List.map_nil]
    decide
  · rw [htr]

/-- C6 (witness): the demo table with its ("control", 3) row removed
fails exactly so. -/
theorem claim6_missing_control3_witness :
    init_model demoTableNoC3 = .error (.missingSlice "control" 3) ∧
    "obs control" ∉ (init_trace demoTableNoC3).1.map Node.name ∧
    (init_trace demoTableNoC3).2 = some (.missingSlice "control" 3) :=
  claim6_missing_control3 demoTableNoC3 (0.05, 0.04) (0.07, 0.05)
    (by rfl) (by rfl) (by decide)

/-- C8: `init_model` threaded over an explicit world — its six
`df.loc` dereferences are the only primitives it runs against the
caller's state, each a read — finishes with the world it was given:
the input table is not mutated and the I/O log is untouched, and its
result is exactly `init_model` of the table. -/
theorem claim8_no_mutation_no_io (w : World) :
    init_modelW w = (init_model w.table, w) := by
  unfold init_modelW World.readLoc init_model init_trace
  cases w.table.loc "treatment" 1 with
  | error e => rfl
  | ok t1 =>
  dsimp only
  cases w.table.loc "treatment" 2 with
  | error e => rfl
  | ok t2 =>
  dsimp only
  cases w.table.loc "control" 3 with
  | error e => rfl
  | ok c3 =>
  dsimp only
  cases w.table.loc "control" 1 with
  | error e => rfl
  | ok c1 =>
  dsimp only
  cases w.table.loc "control" 2 with
  | error e => rfl
  | ok c2 =>
  dsimp only
  cases w.table.loc "treatment" 3 with
  | error e => rfl
  | ok t3 => rfl

/-! ### Claims about the realization extractor (C5, C7, C9, C10) -/

/-- C5: for every cube with an analyte-name list of length ≥ 2 and
every in-bounds realization index, extract returns a table whose
columns are the analyte names minus the dropped trailing one (count =
analyte count − 1), whose rows are sorted ascending by
(plot-type label, round) — tag 1 mapped to "control" and 0 to
"treatment" inside `rawRow` — and whose rows are, up to that sorting, a
permutation of the unaltered labeled slice `rawRows`. -/
theorem claim5_extract_sorted_table (ds : Dataset) (r : ℤ)
    (hwf : ds.WellFormed) (_ha : 2 ≤ ds.analytes.length)
    (hlo : -(ds.nreal : ℤ) ≤ r) (hhi : r < (ds.nreal : ℤ)) :
    ∃ t, load_realization ds r = .ok t ∧
      t.cols = ds.analytes.dropLast ∧
      t.cols.length = ds.analytes.length - 1 ∧
      t.rows.Pairwise (fun a b => rowLe a b = true) ∧
      t.rows.Perm (rawRows ds (effIndex ds.nreal r)) := by
  obtain ⟨hW, hC, hR, _⟩ := hwf
  have hb1 : ¬(r < -(ds.nreal : ℤ) ∨ (ds.nreal : ℤ) ≤ r) := by omega
  have hc1 : ds.data.all (fun srow => srow.length == ds.analytes.length) = true :=
    List.all_eq_true.mpr fun x hx => beq_iff_eq.mpr (hW x hx)
  have hc2 : (ds.control.length == ds.data.length &&
      ds.round.length == ds.data.length) = true := by
    rw [Bool.and_eq_true, beq_iff_eq, beq_iff_eq]
    exact ⟨hC, hR⟩
  have hok : load_realization ds r =
      .ok ⟨ds.analytes.dropLast, (rawRows ds (effIndex ds.nreal r)).mergeSort rowLe⟩ := by
    unfold load_realization
    rw [if_neg hb1, if_pos hc1, if_pos hc2]
  refine ⟨_, hok, rfl, List.length_dropLast _, ?_, ?_⟩
  · exact List.sorted_mergeSort rowLe_trans rowLe_total _
  · exact List.mergeSort_perm _ rowLe

/-- C5 (witness): the shape/sortedness/permutation guarantee at the
concrete two-sample cube and realization 0. -/
theorem claim5_extract_sorted_table_witness :
    ∃ t, load_realization demoDataset 0 = .ok t ∧
      t.cols = demoDataset.analytes.dropLast ∧
      t.cols.length = demoDataset.analytes.length - 1 ∧
      t.rows.Pairwise (fun a b => rowLe a b = true) ∧
      t.rows.Perm (rawRows demoDataset (effIndex demoDataset.nreal 0)) :=
  claim5_extract_sorted_table demoDataset 0 (by decide) (by decide)
    (by decide) (by decide)

/-- C7: for every cube and every integer realization index outside the
third-axis bound (Python indexing admits −n..n−1), extract fails with
the IndexError condition and returns no table. -/
theorem claim7_index_error (ds : Dataset) (r : ℤ)
    (h : r < -(ds.nreal : ℤ) ∨ (ds.nreal : ℤ) ≤ r) :
    load_realization ds r = .error .indexError := by
  unfold load_realization
  rw [if_pos h]

/-- C7 (witness): realization index 5 on the two-realization cube. -/
theorem claim7_index_error_witness :
    load_realization demoDataset 5 = .error .indexError :=
  claim7_index_error demoDataset 5 (by decide)

/-- C9: for every well-formed cube whose plot-type tag column holds a
value other than 0 or 1, extract does not fail: the unrecognized tag
passes through `mapTag` unmapped and appears verbatim (as the numeric
label `Label.num v`) among the output table's row labels. -/
theorem claim9_unmapped_tag (ds : Dataset) (r : ℤ) (i : ℕ) (v : ℤ)
    (hwf : ds.WellFormed) (hlo : -(ds.nreal : ℤ) ≤ r) (hhi : r < (ds.nreal : ℤ))
    (hv : ds.control[i]? = some v) (h0 : v ≠ 0) (h1 : v ≠ 1) :
    ∃ t, load_realization ds r = .ok t ∧
      Label.num v ∈ t.rows.map Row.label := by
  obtain ⟨hW, hC, hR, _⟩ := hwf
  have hb1 : ¬(r < -(ds.nreal : ℤ) ∨ (ds.nreal : ℤ) ≤ r) := by omega
  have hc1 : ds.data.all (fun srow => srow.length == ds.analytes.length) = true :=
    List.all_eq_true.mpr fun x hx => beq_iff_eq.mpr (hW x hx)
  have hc2 : (ds.control.length == ds.data.length &&
      ds.round.length == ds.data.length) = true := by
    rw [Bool.and_eq_true, beq_iff_eq, beq_iff_eq]
    exact ⟨hC, hR⟩
  have hok : load_realization ds r =
      .ok ⟨ds.analytes.dropLast, (rawRows ds (effIndex ds.nreal r)).mergeSort rowLe⟩ := by
    unfold load_realization
    rw [if_neg hb1, if_pos hc1, if_pos hc2]
  refine ⟨_, hok, ?_⟩
  have hi : i < ds.data.length := by
    have := (List.getElem?_eq_some_iff.mp hv).1
    omega
  have hraw : rawRow ds (effIndex ds.nreal r) i ∈ rawRows ds (effIndex ds.nreal r) :=
    List.mem_map.mpr ⟨i, List.mem_range.mpr hi, rfl⟩
  have hlabel : (rawRow ds (effIndex ds.nreal r) i).label = Label.num v := by
    unfold rawRow
    dsimp only
    rw [List.getD_eq_getElem?_getD, hv, Option.getD_some]
    unfold mapTag
    rw [if_neg h1, if_neg h0]
  have hperm :=
    (List.mergeSort_perm (rawRows ds (effIndex ds.nreal r)) rowLe).map Row.label
  exact hperm.mem_iff.mpr (List.mem_map.mpr ⟨_, hraw, hlabel⟩)

/-- C9 (witness): the cube whose second sample has tag 7: the label 7
survives into the output index. -/
theorem claim9_unmapped_tag_witness :
    ∃ t, load_realization demoDatasetTag7 0 = .ok t ∧
      Label.num 7 ∈ t.rows.map Row.label :=
  claim9_unmapped_tag demoDatasetTag7 0 1 7 (by decide) (by decide) (by decide)
    (by rfl) (by decide) (by decide)

/-- C10: for every well-formed cube with third-axis length n and every
negative in-bounds index −n ≤ r < 0, extract does not raise an error:
it returns the slice counted from the end, equal to extracting at
n + r. -/
theorem claim10_negative_index (ds : Dataset) (r : ℤ)
    (hwf : ds.WellFormed) (hlo : -(ds.nreal : ℤ) ≤ r) (hneg : r < 0) :
    load_realization ds r = load_realization ds ((ds.nreal : ℤ) + r) ∧
    ∃ t, load_realization ds r = .ok t := by
  obtain ⟨hW, hC, hR, _⟩ := hwf
  have hb1 : ¬(r < -(ds.nreal : ℤ) ∨ (ds.nreal : ℤ) ≤ r) := by omega
  have hb2 : ¬((ds.nreal : ℤ) + r < -(ds.nreal : ℤ) ∨
      (ds.nreal : ℤ) ≤ (ds.nreal : ℤ) + r) := by omega
  have heff : effIndex ds.nreal r = effIndex ds.nreal ((ds.nreal : ℤ) + r) := by
    unfold effIndex
    split <;> split <;> omega
  have hc1 : ds.data.all (fun srow => srow.length == ds.analytes.length) = true :=
    List.all_eq_true.mpr fun x hx => beq_iff_eq.mpr (hW x hx)
  have hc2 : (ds.control.length == ds.data.length &&
      ds.round.length == ds.data.length) = true := by
    rw [Bool.and_eq_true, beq_iff_eq, beq_iff_eq]
    exact ⟨hC, hR⟩
  constructor
  · unfold load_realization
    rw [if_neg hb1, if_neg hb2, heff]
  · refine ⟨⟨ds.analytes.dropLast,
      (rawRows ds (effIndex ds.nreal r)).mergeSort rowLe⟩, ?_⟩
    unfold load_realization
    rw [if_neg hb1, if_pos hc1, if_pos hc2]

/-- C10 (witness): extracting realization −1 of the two-realization
cube succeeds and equals extracting realization 1. -/
theorem claim10_negative_index_witness :
    load_realization demoDataset (-1) =
      load_realization demoDataset ((demoDataset.nreal : ℤ) + -1) ∧
    ∃ t, load_realization demoDataset (-1) = .ok t :=
  claim10_negative_index demoDataset (-1) (by decide) (by decide) (by decide)

end Monty
